import Mathlib

/-!
Verification development for the khoborfresh news pipeline.

Shallow embedding of the deduplication + batch-enrichment pipeline:
the similarity scorer and duplicate finder (news_merger_service.py),
the batch partitioner and per-article enrichment loop
(detailed_news_service.py), the persistence normalizer
(supabase_service.py), and the upload-time identity deduplication
(api/endpoints.py).  External collaborators (Firecrawl scraping,
Mistral chat/embedding calls, the Supabase row store, the file system)
are modelled as oracle functions returning an Except value, mirroring
the success/error dictionaries the Python wrappers build around them.
Python strings are Lean Strings, Python numbers used by the pipeline
arithmetic are Nat/Int, and embedding-vector floats are modelled as
rationals.  A Python value that may be absent is an Option; Python
truthiness on strings (absent or empty both falsy) is the function
pyTruthy below.

The file is organised as definitions first (translated from the
source), then theorems.
-/

namespace KhoborFresh

/-! ## Python-style helpers -/

/-- Python truthiness of an optional string: an absent value and the
empty string are both falsy. -/
def pyTruthy : Option String → Bool
  | some s => s ≠ ""
  | none => false

/-- Python a or b for optional strings: the left value unless it is
falsy (absent or empty), else the right value. -/
def pyOrStr : Option String → Option String → Option String
  | some s, b => if s = "" then b else some s
  | none, b => b

/-- Python str.strip(): remove leading and trailing whitespace
characters.  Written over the character list so concrete instances
evaluate inside the kernel. -/
def pyStrip (s : String) : String :=
  String.mk (((s.data.dropWhile Char.isWhitespace).reverse.dropWhile
    Char.isWhitespace).reverse)

/-- Python character slicing s[:n]: the first n characters. -/
def pyTake (s : String) (n : Nat) : String := String.mk (s.data.take n)

/-! ## Batch partitioner

From detailed_news_service.process_merged_news_batch (lines 217-227):
articles_per_batch is ceiling division of the article count by the
fixed four batches, and batch b covers the Python slice
all_articles[(b-1)*apb : min((b-1)*apb + apb, total)]. -/

/-- articles_per_batch: ceiling division, written in the source as
(total_articles + 3) // 4 for the fixed totalBatches = 4; here with
the batch count as a parameter so the spec-level guarantee can be
stated for every totalBatches >= 1. -/
def articlesPerBatch (totalArticles totalBatches : Nat) : Nat :=
  (totalArticles + totalBatches - 1) / totalBatches

/-- start_idx = (batch_number - 1) * articles_per_batch. -/
def batchStartIdx (batchNumber apb : Nat) : Nat := (batchNumber - 1) * apb

/-- end_idx = min(start_idx + articles_per_batch, total_articles). -/
def batchEndIdx (totalArticles batchNumber apb : Nat) : Nat :=
  min (batchStartIdx batchNumber apb + apb) totalArticles

/-- The Python slice all_articles[start_idx:end_idx] for one batch. -/
def batchSlice (articles : List α) (batchNumber totalBatches : Nat) : List α :=
  let apb := articlesPerBatch articles.length totalBatches
  let s := batchStartIdx batchNumber apb
  let e := batchEndIdx articles.length batchNumber apb
  (articles.drop s).take (e - s)

/-- All batches in order, batch numbers 1 .. totalBatches. -/
def partitionBatches (articles : List α) (totalBatches : Nat) : List (List α) :=
  (List.range totalBatches).map (fun i => batchSlice articles (i + 1) totalBatches)

/-! ## Similarity engine

calculate_text_similarity from news_merger_service.py (lines 49-66).
The TF-IDF vectorization and the cosine computation live in
scikit-learn, an external collaborator: they are modelled as an oracle
cos that either yields the cosine score or fails (any raised exception
lands in the except branch).  The emptiness guard and the catch-all
mapping to 0.0 are the repository's own code. -/

/-- calculate_text_similarity: return 0.0 for empty/whitespace-only
input without vectorizing, otherwise the cosine score, with any
internal failure caught and mapped to 0.0. -/
def calculate_text_similarity (cos : String → String → Except String ℚ)
    (text1 text2 : String) : ℚ :=
  if pyStrip text1 = "" || pyStrip text2 = "" then 0
  else
    match cos text1 text2 with
    | Except.ok s => s
    | Except.error _ => 0

/-! ## Deduplication stage

find_duplicates (news_merger_service.py lines 68-91) and the duplicate
removal inside merge_news_sources (lines 136-147). -/

/-- A harvested article as the merger and the enrichment loop see it:
a JSON dict read with dict.get.  Only the keys the deduplication and
enrichment control flow consult are modelled. -/
structure NewsArticle where
  title : Option String := none
  summary : Option String := none
  url : Option String := none
  source_url : Option String := none
  chunk_source : Option String := none
deriving DecidableEq, Repr

instance : Inhabited NewsArticle := ⟨{}⟩

/-- The default similarity_threshold set in NewsMergerService.__init__. -/
def similarity_threshold : ℚ := 85 / 100

/-- The comparison text for one article: the f-string
title-space-summary with .strip(), using "" for missing keys. -/
def articleText (a : NewsArticle) : String :=
  pyStrip ((a.title.getD "") ++ " " ++ (a.summary.getD ""))

/-- find_duplicates: for every i, for every j in range(i+1, n), score
the two comparison texts and emit (i, j, score) when the score reaches
the threshold, in iteration order. -/
def find_duplicates (cos : String → String → Except String ℚ)
    (threshold : ℚ) (articles : List NewsArticle) : List (Nat × Nat × ℚ) :=
  (List.range articles.length).flatMap (fun i =>
    ((List.range articles.length).filter (fun j => decide (i < j))).filterMap
      (fun j =>
        let s := calculate_text_similarity cos
          (articleText (articles.getD i default))
          (articleText (articles.getD j default))
        if threshold ≤ s then some (i, j, s) else none))

/-- articles_to_remove: the second indices of the emitted duplicate
pairs (built in merge_news_sources by folding over the pairs into a
set; modelled as the list of second components, consulted only for
membership). -/
def articles_to_remove (dups : List (Nat × Nat × ℚ)) : List Nat :=
  dups.map (fun d => d.2.1)

/-- The unique_articles comprehension of merge_news_sources: keep each
(idx, article) of enumerate(all_articles) whose idx is not in
articles_to_remove, in order. -/
def merge_unique (cos : String → String → Except String ℚ)
    (threshold : ℚ) (articles : List NewsArticle) : List NewsArticle :=
  (articles.enum.filter (fun p =>
    !((articles_to_remove (find_duplicates cos threshold articles)).contains
      p.1))).map Prod.snd

/-! ## Persistence normalizer (supabase_service.py)

The article dicts reaching SupabaseService are the detailed articles
produced by the enrichment pipeline; their keys are typed here.  An
embedding element is modelled as an Option rational: some q is a value
float() converts to, none is a value on which float() raises. -/

/-- A detailed (enriched) article dict.  Fields the pipeline or the
normalizer reads; every field is optional because the dict may lack
any key. -/
structure DetailedArticle where
  title : Option String := none
  summary : Option String := none
  full_text : Option String := none
  category : Option String := none
  sentiment : Option String := none
  importance_level : Option Int := none
  keywords : Option (List String) := none
  date_time : Option String := none
  location : Option String := none
  named_entities : Option String := none
  source_name : Option String := none
  original_source_name : Option String := none
  source_url : Option String := none
  url : Option String := none
  thumbnail_url : Option String := none
  language : Option String := none
  original_title : Option String := none
  original_summary : Option String := none
  chunk_source : Option String := none
  embedding : Option (List (Option ℚ)) := none
  embedding_model : Option String := none
  embedding_dimension : Option Int := none
  processing_status : Option String := none
  processing_timestamp : Option String := none
  batch_number : Option Int := none
  global_article_number : Option Int := none
deriving DecidableEq, Repr

/-- _coerce_keywords, restricted to the list-typed values the pipeline
produces: the list branch maps str over the items, the identity on
strings; None stays None.  (The comma-splitting string branch concerns
string-typed input, which this typed model excludes.) -/
def coerce_keywords (v : Option (List String)) : Option (List String) := v

/-- _coerce_int, restricted to int-typed values: int(x) on an int is x
and None stays None.  (The failure branch concerns non-numeric input,
which this typed model excludes.) -/
def coerce_int (v : Option Int) : Option Int := v

/-- _coerce_timestamp: falsy input (absent or empty string) becomes
None, a non-empty string passes through. -/
def coerce_timestamp : Option String → Option String
  | none => none
  | some s => if s = "" then none else some s

/-- _coerce_embedding: falsy input (absent or the empty list) is
rejected; then every element must convert to a float (one failure
raises, caught as rejection) and the converted vector must have
exactly the configured dimension, else rejection. -/
def coerce_embedding (dim : Nat) : Option (List (Option ℚ)) → Option (List ℚ)
  | none => none
  | some l =>
    if l.isEmpty then none
    else
      match l.mapM id with
      | none => none
      | some vec => if vec.length ≠ dim then none else some vec

/-- A row of the articles table; embedding = none models the key being
left out of the row dict. -/
structure StorageRow where
  title : String
  full_text : String
  summary : Option String
  category : Option String
  sentiment : Option String
  importance_level : Option Int
  keywords : Option (List String)
  date_time : Option String
  location : Option String
  named_entities : Option String
  source_name : Option String
  source_url : String
  thumbnail_url : Option String
  language : Option String
  embedding : Option (List ℚ)
deriving DecidableEq, Repr

/-- normalize_article_for_db: None when title, full_text or
source_url-falling-back-to-url is falsy (the source returns None early
in that case and builds the row otherwise), else the row with the
coerced optional fields; the embedding key is added only when
_coerce_embedding accepts it. -/
def normalize_article_for_db (dim : Nat) (article : DetailedArticle) :
    Option StorageRow :=
  if pyTruthy article.title && pyTruthy article.full_text
      && pyTruthy (pyOrStr article.source_url article.url) then
    some {
      title := article.title.getD "",
      full_text := article.full_text.getD "",
      summary := article.summary,
      category := article.category,
      sentiment := article.sentiment,
      importance_level := coerce_int article.importance_level,
      keywords := coerce_keywords article.keywords,
      date_time := coerce_timestamp article.date_time,
      location := article.location,
      named_entities := article.named_entities,
      source_name := pyOrStr article.source_name article.original_source_name,
      source_url := (pyOrStr article.source_url article.url).getD "",
      thumbnail_url := article.thumbnail_url,
      language := article.language,
      embedding := coerce_embedding dim article.embedding }
  else none

/-- The result dict of upsert_articles. -/
structure UpsertResult where
  success : Bool
  error : Option String
  count : Nat
deriving DecidableEq, Repr

/-- upsert_articles: normalize every article, drop the Nones, fail
with "No valid rows to upsert" when nothing remains, else hand the
rows to the store client (conflict key source_url) and report its
outcome; a raised store error is caught into a failure dict. -/
def upsert_articles (store : List StorageRow → Except String Unit) (dim : Nat)
    (articles : List DetailedArticle) : UpsertResult :=
  let rows := articles.filterMap (normalize_article_for_db dim)
  if rows.isEmpty then ⟨false, some "No valid rows to upsert", 0⟩
  else
    match store rows with
    | Except.ok _ => ⟨true, none, rows.length⟩
    | Except.error e => ⟨false, some e, 0⟩

/-! ## Enrichment pipeline (detailed_news_service.py)

The external collaborator calls of the per-article state machine,
bundled as an oracle.  Each field models the success/error dictionary
of one wrapper: scrape_article_content (Firecrawl, including the
missing-API-key early error), the markdown extraction from the scrape
response object, preprocess_content applied to the prompt built from
the scraped markdown and the article (chat completion), json.loads of
the chat response (error = JSONDecodeError), get_embeddings on the
embedding input (the returned data list), datetime.now().isoformat()
and the Supabase table write. -/
structure Oracle where
  scrape : String → Except String String
  extractMarkdown : String → Except String String
  preprocessOnArticle : String → NewsArticle → Except String String
  parseJson : String → Except String DetailedArticle
  getEmbeddings : String → Except String (List (List ℚ))
  now : String
  storeUpsert : List StorageRow → Except String Unit

/-- process_article_with_mistral: chat call, then JSON parse, then the
three original_* / chunk_source keys copied from the input article;
each failure becomes the error string the source formats. -/
def process_article_with_mistral (o : Oracle) (content : String)
    (article : NewsArticle) : Except String DetailedArticle :=
  match o.preprocessOnArticle content article with
  | Except.error e => Except.error ("Mistral processing failed: " ++ e)
  | Except.ok response =>
    match o.parseJson response with
    | Except.error e => Except.error ("Failed to parse Mistral response: " ++ e)
    | Except.ok pd =>
        Except.ok { pd with
          original_title := article.title,
          original_summary := article.summary,
          chunk_source := some (article.chunk_source.getD "unknown") }

/-- The embedding input text: title + " " + summary stripped, falling
back to the first 1000 characters of full_text when that is empty. -/
def embedding_input (a : DetailedArticle) : String :=
  let base := pyStrip ((a.title.getD "") ++ " " ++ (a.summary.getD ""))
  if base = "" then pyTake (a.full_text.getD "") 1000 else base

/-- generate_article_embedding: call the embedding provider on a
single-item batch; on success with a non-empty data list attach
embedding, embedding_model and embedding_dimension; on a failed call
or an empty (falsy) data list return success=False with the article
data unchanged. -/
def generate_article_embedding (o : Oracle) (a : DetailedArticle) :
    Bool × DetailedArticle :=
  match o.getEmbeddings (embedding_input a) with
  | Except.ok (v :: _) =>
      (true, { a with
        embedding := some (v.map some),
        embedding_model := some "mistral-embed",
        embedding_dimension := some (v.length : Int) })
  | Except.ok [] => (false, a)
  | Except.error _ => (false, a)

/-- The body of the per-article loop of process_merged_news_batch:
resolve the URL (url falling back to source_url, Python-falsy check),
scrape, extract markdown, process with Mistral — each failure records
the error string the source formats and skips the rest via continue —
then generate the embedding (both outcomes keep the returned article
data), and stamp the four processing-metadata keys. -/
def process_one_article (o : Oracle) (article : NewsArticle)
    (globalNum batchNumber : Nat) : Except String DetailedArticle :=
  let url := pyOrStr article.url article.source_url
  if pyTruthy url = false then
    Except.error ("Article " ++ toString globalNum ++ ": No URL found")
  else
    match o.scrape (url.getD "") with
    | Except.error e =>
        Except.error ("Article " ++ toString globalNum
          ++ ": Scraping failed - " ++ e)
    | Except.ok content =>
      match o.extractMarkdown content with
      | Except.error e =>
          Except.error ("Article " ++ toString globalNum
            ++ ": Markdown extraction failed - " ++ e)
      | Except.ok md =>
        match process_article_with_mistral o md article with
        | Except.error e =>
            Except.error ("Article " ++ toString globalNum
              ++ ": Mistral processing failed - " ++ e)
        | Except.ok pd =>
          let er := generate_article_embedding o pd
          Except.ok { er.2 with
            processing_timestamp := some o.now,
            processing_status := some "completed",
            batch_number := some (batchNumber : Int),
            global_article_number := some (globalNum : Int) }

/-- One observable event of the batch loop: processing one article
(carrying its global article number) or the asyncio.sleep(1) call. -/
inductive PipelineEvent where
  | process (globalNum : Nat)
  | sleep
deriving DecidableEq, Repr

/-- The processing_stats counters accumulated by the loop. -/
structure BatchStats where
  successful : Nat := 0
  failed : Nat := 0
  errors : List String := []
deriving DecidableEq, Repr

/-- What the loop produces: the counters, the detailed_articles list
and the event trace. -/
structure LoopOut where
  stats : BatchStats
  detailed : List DetailedArticle
  trace : List PipelineEvent
deriving DecidableEq, Repr

/-- The per-article loop: g is the 1-based global article number of
the head article.  A failed article appends its error and continues
(no sleep); a successful article is appended to detailed_articles,
counted, and followed by await asyncio.sleep(1). -/
def process_batch_go (o : Oracle) (batchNumber : Nat) :
    Nat → List NewsArticle → LoopOut
  | _, [] => ⟨{}, [], []⟩
  | g, a :: rest =>
    let tail := process_batch_go o batchNumber (g + 1) rest
    match process_one_article o a g batchNumber with
    | Except.error e =>
        ⟨⟨tail.stats.successful, tail.stats.failed + 1, e :: tail.stats.errors⟩,
          tail.detailed, PipelineEvent.process g :: tail.trace⟩
    | Except.ok da =>
        ⟨⟨tail.stats.successful + 1, tail.stats.failed, tail.stats.errors⟩,
          da :: tail.detailed,
          PipelineEvent.process g :: PipelineEvent.sleep :: tail.trace⟩

/-- The dict process_merged_news_batch returns, reduced to the fields
the claims consult. -/
structure BatchRunResult where
  success : Bool
  error : Option String := none
  stats : BatchStats := {}
  detailed_articles : List DetailedArticle := []
  trace : List PipelineEvent := []
  supabase_upload : Option UpsertResult := none
deriving DecidableEq, Repr

/-- process_merged_news_batch.  The merge step (which reads the news
files from disk) is abstracted to the parameter allArticles, the
merged article list it yields on success; a failed merge and the
not-in-[1,2,3,4] batch-number check both return early failure dicts.
After the loop the batch JSON is saved and the detailed articles are
upserted; the processing_summary then computes
successful / len(batch_articles), which on an empty slice raises
ZeroDivisionError, caught by the enclosing handler into the
"Error processing batch N" failure dict — hence the final guard. -/
def process_merged_news_batch (o : Oracle) (dim : Nat)
    (allArticles : List NewsArticle) (batchNumber : Nat) : BatchRunResult :=
  if ¬(batchNumber = 1 ∨ batchNumber = 2 ∨ batchNumber = 3 ∨ batchNumber = 4)
  then { success := false, error := some "Batch number must be 1, 2, 3, or 4" }
  else if allArticles.isEmpty then
    { success := false, error := some "No articles found to process" }
  else
    let batchArticles := batchSlice allArticles batchNumber 4
    let startIdx :=
      batchStartIdx batchNumber (articlesPerBatch allArticles.length 4)
    let out := process_batch_go o batchNumber (startIdx + 1) batchArticles
    let upload := upsert_articles o.storeUpsert dim out.detailed
    if batchArticles.isEmpty then
      { success := false,
        error := some ("Error processing batch " ++ toString batchNumber
          ++ ": division by zero"),
        stats := out.stats, detailed_articles := out.detailed,
        trace := out.trace, supabase_upload := some upload }
    else
      { success := true, stats := out.stats,
        detailed_articles := out.detailed, trace := out.trace,
        supabase_upload := some upload }

/-! ## Upload-time identity deduplication (api/endpoints.py)

The duplicate filter of upload_all_batches_to_supabase: a fold over
the article stream (the concatenation across batch files) carrying the
seen_urls and seen_titles sets (modelled as lists consulted for
membership). -/

/-- The identity URL of an article at upload time: source_url falling
back to url, if truthy. -/
def idUrl (a : DetailedArticle) : Option String :=
  match pyOrStr a.source_url a.url with
  | some s => if s = "" then none else some s
  | none => none

/-- The identity title of an article at upload time:
article.get("title", "").strip(), if non-empty. -/
def idTitle (a : DetailedArticle) : Option String :=
  let t := pyStrip (a.title.getD "")
  if t = "" then none else some t

/-- Membership of an identity value in a seen set, with the Python
truthiness guard: an absent identity is never a duplicate. -/
def optSeen (v : Option String) (seen : List String) : Bool :=
  match v with
  | some s => seen.contains s
  | none => false

/-- Add an identity value to a seen set when present. -/
def consOption (v : Option String) (seen : List String) : List String :=
  match v with
  | some s => s :: seen
  | none => seen

/-- The upload deduplication loop: an article is a duplicate when its
truthy source_url is already seen, or (elif) its non-empty stripped
title is already seen; kept articles register both identities. -/
def upload_dedup_go (seenUrls seenTitles : List String) :
    List DetailedArticle → List DetailedArticle
  | [] => []
  | a :: rest =>
    if optSeen (idUrl a) seenUrls || optSeen (idTitle a) seenTitles then
      upload_dedup_go seenUrls seenTitles rest
    else
      a :: upload_dedup_go (consOption (idUrl a) seenUrls)
        (consOption (idTitle a) seenTitles) rest

/-- The whole upload-time duplicate filter, starting from empty seen
sets; its output is what upload_all_batches_to_supabase hands to
upsert_articles. -/
def upload_dedup (articles : List DetailedArticle) : List DetailedArticle :=
  upload_dedup_go [] [] articles

/-! ## Concrete inputs used by witnesses -/

/-- A concrete oracle: every stage succeeds with fixed outputs except
the embedding provider, which fails. -/
def oracleOk : Oracle where
  scrape := fun _ => Except.ok "content"
  extractMarkdown := fun c => Except.ok c
  preprocessOnArticle := fun _ _ => Except.ok "json"
  parseJson := fun _ =>
    Except.ok { title := some "T", summary := some "S", full_text := some "F" }
  getEmbeddings := fun _ => Except.error "embedding service down"
  now := "2026-01-01T00:00:00"
  storeUpsert := fun _ => Except.ok ()

/-- A concrete article with a URL. -/
def urlArticle : NewsArticle := { title := some "T", url := some "http://u" }

/-- A concrete article with neither url nor source_url. -/
def noUrlArticle : NewsArticle := { title := some "T2" }

/-- Twenty merged articles whose first batch of five has its second
article lacking a URL. -/
def exampleArticles : List NewsArticle :=
  urlArticle :: noUrlArticle :: urlArticle :: urlArticle :: urlArticle ::
    List.replicate 15 urlArticle

/-- Five merged articles: batch 1 holds the first two, of which the
first lacks a URL. -/
def fiveArticles : List NewsArticle :=
  [noUrlArticle, urlArticle, urlArticle, urlArticle, urlArticle]

/-- The detailed article process_article_with_mistral yields from
oracleOk and urlArticle. -/
def pdWitness : DetailedArticle :=
  { title := some "T", summary := some "S", full_text := some "F",
    original_title := some "T", original_summary := none,
    chunk_source := some "unknown" }

/-- An article carrying a length-3 embedding, checked against a
configured dimension of 2. -/
def embArticle : DetailedArticle :=
  { title := some "T", full_text := some "F", source_url := some "u",
    embedding := some [some (1 / 2), some (3 / 4), some 1] }

/-- Upload-dedup witnesses: dupB repeats the source_url of dupA, dupC
repeats the title of dupA under a fresh source_url. -/
def dupA : DetailedArticle :=
  { title := some "N", source_url := some "u1", full_text := some "F" }

/-- Second upload-dedup witness article (duplicate by source_url). -/
def dupB : DetailedArticle := { title := some "M", source_url := some "u1" }

/-- Third upload-dedup witness article (duplicate by trimmed title). -/
def dupC : DetailedArticle := { title := some "N", source_url := some "u2" }

/-! ## Theorems: batch partitioner (C1) -/

theorem take_add_eq : ∀ (m n : Nat) (l : List α),
    l.take (m + n) = l.take m ++ (l.drop m).take n := by
  intro m
  induction m with
  | zero => intro n l; simp
  | succ m ih =>
    intro n l
    cases l with
    | nil => simp
    | cons a t =>
      rw [Nat.succ_add]
      simp only [List.take_succ_cons, List.drop_succ_cons]
      rw [ih]
      simp

theorem slice_take_clip (l : List α) (s apb : Nat) :
    (l.drop s).take (min (s + apb) l.length - s) = (l.drop s).take apb := by
  rcases le_or_lt (s + apb) l.length with h | h
  · have : min (s + apb) l.length - s = apb := by omega
    rw [this]
  · have h1 : min (s + apb) l.length - s = l.length - s := by omega
    rw [h1, List.take_of_length_le, List.take_of_length_le]
    · simp; omega
    · simp

theorem join_slices_take (l : List α) (apb : Nat) : ∀ B : Nat,
    ((List.range B).map (fun i =>
      (l.drop (i * apb)).take (min (i * apb + apb) l.length - i * apb))).flatten
      = l.take (B * apb) := by
  intro B
  induction B with
  | zero => simp
  | succ B ih =>
    rw [List.range_succ, List.map_append, List.flatten_append, ih]
    simp only [List.map_cons, List.map_nil, List.flatten_cons, List.flatten_nil,
      List.append_nil]
    rw [slice_take_clip, Nat.succ_mul, take_add_eq]

theorem ceil_mul_ge (n B : Nat) (hB : 1 ≤ B) : n ≤ B * ((n + B - 1) / B) := by
  have h := Nat.div_add_mod (n + B - 1) B
  have hmod := Nat.mod_lt (n + B - 1) (show 0 < B by omega)
  omega

/-- C1: the ceiling-division batch arithmetic partitions the article
list exactly: joining the slices for batch numbers 1..totalBatches
reconstructs the original sequence (every element exactly once, no
gaps, no overlaps), and for 10 articles in 4 batches the slice sizes
are [3,3,3,1] with boundaries [0,3), [3,6), [6,9), [9,10). -/
theorem batch_partition_reconstructs {α : Type} (l : List α) (B : Nat)
    (hB : 1 ≤ B) :
    (partitionBatches l B).flatten = l
    ∧ (l.length = 10 →
        (partitionBatches l 4).map List.length = [3, 3, 3, 1]
        ∧ (List.range 4).map (fun i =>
            (batchStartIdx (i + 1) (articlesPerBatch l.length 4),
             batchEndIdx l.length (i + 1) (articlesPerBatch l.length 4)))
          = [(0, 3), (3, 6), (6, 9), (9, 10)]) := by
  constructor
  · have hrw : ∀ i : Nat,
        batchSlice l (i + 1) B =
          (l.drop (i * (articlesPerBatch l.length B))).take
            (min (i * (articlesPerBatch l.length B) +
              articlesPerBatch l.length B) l.length -
              i * (articlesPerBatch l.length B)) := by
      intro i
      simp [batchSlice, batchStartIdx, batchEndIdx]
    have h1 : (partitionBatches l B).flatten =
        l.take (B * articlesPerBatch l.length B) := by
      unfold partitionBatches
      rw [show ((List.range B).map fun i => batchSlice l (i + 1) B)
          = (List.range B).map (fun i =>
            (l.drop (i * (articlesPerBatch l.length B))).take
              (min (i * (articlesPerBatch l.length B) +
                articlesPerBatch l.length B) l.length -
                i * (articlesPerBatch l.length B)))
        from List.map_congr_left (fun i _ => hrw i)]
      exact join_slices_take l (articlesPerBatch l.length B) B
    rw [h1, List.take_of_length_le]
    exact ceil_mul_ge l.length B hB
  · intro h10
    constructor
    · simp [partitionBatches, List.range_succ, batchSlice, articlesPerBatch,
        batchStartIdx, batchEndIdx, h10]
    · simp [List.range_succ, articlesPerBatch, batchStartIdx, batchEndIdx, h10]

/-- Witness for C1 at a concrete input: 10 articles, 4 batches. -/
theorem batch_partition_reconstructs_witness :
    (partitionBatches (List.range 10) 4).flatten = List.range 10
    ∧ (partitionBatches (List.range 10) 4).map List.length = [3, 3, 3, 1] := by
  have h := batch_partition_reconstructs (List.range 10) 4 (by decide)
  exact ⟨h.1, (h.2 (by decide)).1⟩

/-! ## Theorems: similarity engine (C8) -/

/-- C8: similarity scoring never raises to its caller (it is a total
function of its inputs): empty or whitespace-only input yields 0.0
independently of the vectorizer, an internal vectorizer failure is
caught and mapped to 0.0, and under the cosine collaborator contract
that scores lie in [0,1] the returned score lies in [0,1]. -/
theorem similarity_never_raises_and_bounded
    (cos : String → String → Except String ℚ) (t1 t2 : String)
    (hrange : ∀ a b s, cos a b = Except.ok s → 0 ≤ s ∧ s ≤ 1) :
    (0 ≤ calculate_text_similarity cos t1 t2
      ∧ calculate_text_similarity cos t1 t2 ≤ 1)
    ∧ ((pyStrip t1 = "" ∨ pyStrip t2 = "") →
        ∀ cos2, calculate_text_similarity cos2 t1 t2 = 0)
    ∧ (∀ e, cos t1 t2 = Except.error e →
        calculate_text_similarity cos t1 t2 = 0) := by
  have hempty : ∀ (c : String → String → Except String ℚ),
      (pyStrip t1 = "" ∨ pyStrip t2 = "") →
        calculate_text_similarity c t1 t2 = 0 := by
    intro c h
    unfold calculate_text_similarity
    rcases h with h | h <;> simp [h]
  refine ⟨?_, fun h c2 => hempty c2 h, ?_⟩
  · by_cases h : pyStrip t1 = "" ∨ pyStrip t2 = ""
    · rw [hempty cos h]; norm_num
    · push_neg at h
      unfold calculate_text_similarity
      rw [if_neg (by simp [h.1, h.2])]
      cases hc : cos t1 t2 with
      | ok s => simpa using hrange t1 t2 s hc
      | error e => norm_num
  · intro e he
    by_cases h : pyStrip t1 = "" ∨ pyStrip t2 = ""
    · exact hempty cos h
    · push_neg at h
      unfold calculate_text_similarity
      rw [if_neg (by simp [h.1, h.2]), he]

/-- Witness for C8 at a concrete vectorizer and concrete texts. -/
theorem similarity_never_raises_and_bounded_witness :
    (0 ≤ calculate_text_similarity (fun _ _ => Except.ok (1 / 2)) "a" "b"
      ∧ calculate_text_similarity (fun _ _ => Except.ok (1 / 2)) "a" "b" ≤ 1)
    ∧ calculate_text_similarity (fun _ _ => Except.ok (1 / 2)) "  " "b" = 0 := by
  have h := similarity_never_raises_and_bounded
    (fun _ _ => Except.ok ((1 : ℚ) / 2)) "a" "b"
    (by
      intro a b s hs
      simp only [Except.ok.injEq] at hs
      rw [← hs]
      norm_num)
  have h2 := similarity_never_raises_and_bounded
    (fun _ _ => Except.ok ((1 : ℚ) / 2)) "  " "b"
    (by
      intro a b s hs
      simp only [Except.ok.injEq] at hs
      rw [← hs]
      norm_num)
  exact ⟨h.1, (h2.2.1 (Or.inl (by decide))) _⟩

/-! ## Theorems: deduplication stage (C2) -/

theorem not_contains_remove (D : List (Nat × Nat × ℚ)) (x : Nat) :
    (!((articles_to_remove D).contains x))
      = decide (∀ d ∈ D, d.2.1 ≠ x) := by
  induction D with
  | nil => simp [articles_to_remove]
  | cons d D ih =>
    simp only [articles_to_remove, List.map_cons, List.contains_cons,
      Bool.not_or] at ih ⊢
    rw [ih]
    by_cases hd : d.2.1 = x
    · simp [hd]
    · rw [show decide (∀ d_1 ∈ d :: D, ¬d_1.2.1 = x)
          = (decide (¬d.2.1 = x) && decide (∀ d_1 ∈ D, ¬d_1.2.1 = x)) from by
        rw [Bool.eq_iff_iff]
        simp [List.forall_mem_cons]]
      simp [hd, Ne.symm hd, beq_iff_eq]

/-- C2: deduplication removes exactly the indices that occur as the
second element of an emitted over-threshold pair, the survivors being
the order-preserved complement; consequently three pairwise
over-threshold-similar articles leave exactly the article at index 0. -/
theorem dedupe_removes_second_elements
    (cos : String → String → Except String ℚ) (threshold : ℚ)
    (articles : List NewsArticle) :
    merge_unique cos threshold articles
      = (articles.enum.filter (fun p =>
          decide (∀ d ∈ find_duplicates cos threshold articles,
            d.2.1 ≠ p.1))).map Prod.snd
    ∧ ∀ a b c : NewsArticle,
        threshold ≤ calculate_text_similarity cos (articleText a)
          (articleText b) →
        threshold ≤ calculate_text_similarity cos (articleText a)
          (articleText c) →
        threshold ≤ calculate_text_similarity cos (articleText b)
          (articleText c) →
        merge_unique cos threshold [a, b, c] = [a] := by
  constructor
  · unfold merge_unique
    congr 1
    apply List.filter_congr
    intro p _
    exact not_contains_remove _ _
  · intro a b c h1 h2 h3
    have hdups : find_duplicates cos threshold [a, b, c]
        = [(0, 1, calculate_text_similarity cos (articleText a)
              (articleText b)),
           (0, 2, calculate_text_similarity cos (articleText a)
              (articleText c)),
           (1, 2, calculate_text_similarity cos (articleText b)
              (articleText c))] := by
      unfold find_duplicates
      rw [show List.range ([a, b, c] : List NewsArticle).length = [0, 1, 2]
        from rfl]
      simp only [List.flatMap_cons, List.flatMap_nil]
      rw [show ([0, 1, 2] : List Nat).filter (fun j => decide (0 < j)) = [1, 2]
            from by decide,
          show ([0, 1, 2] : List Nat).filter (fun j => decide (1 < j)) = [2]
            from by decide,
          show ([0, 1, 2] : List Nat).filter (fun j => decide (2 < j)) = []
            from by decide]
      simp only [List.filterMap_cons, List.filterMap_nil, List.getD_cons_zero,
        List.getD_cons_succ, List.append_nil]
      rw [if_pos h1, if_pos h2, if_pos h3]
      rfl
    unfold merge_unique
    rw [hdups]
    simp [articles_to_remove, List.enum, List.enumFrom, List.filter]

/-- Witness for C2 at a concrete scorer, threshold and articles. -/
theorem dedupe_removes_second_elements_witness :
    merge_unique (fun _ _ => Except.ok 1) similarity_threshold
      [{ title := some "x" }, { title := some "x" }, { title := some "x" }]
      = [{ title := some "x" }] := by
  have h := dedupe_removes_second_elements (fun _ _ => Except.ok 1)
    similarity_threshold
    [{ title := some "x" }, { title := some "x" }, { title := some "x" }]
  refine h.2 _ _ _ ?_ ?_ ?_ <;>
  · simp [calculate_text_similarity, articleText, similarity_threshold]
    rw [if_neg (by decide)]
    norm_num

/-! ## Theorems: persistence normalizer (C6, C7) -/

theorem pyTruthy_eq_some {v : Option String} (h : pyTruthy v = true) :
    v = some (v.getD "") := by
  cases v with
  | none => simp [pyTruthy] at h
  | some s => rfl

/-- C6: normalize returns null exactly when title, full_text, or
source_url (falling back to url) is missing (Python-falsy: absent or
empty) — the only hard requirements — and otherwise returns a row
carrying the three required values and the optional fields as
supplied (through the per-field coercions of the source). -/
theorem normalize_null_iff_required_missing (dim : Nat) (a : DetailedArticle) :
    (normalize_article_for_db dim a = none ↔
      (pyTruthy a.title = false ∨ pyTruthy a.full_text = false
        ∨ pyTruthy (pyOrStr a.source_url a.url) = false))
    ∧ (∀ row, normalize_article_for_db dim a = some row →
        a.title = some row.title ∧ a.full_text = some row.full_text
        ∧ pyOrStr a.source_url a.url = some row.source_url
        ∧ row.summary = a.summary ∧ row.category = a.category
        ∧ row.sentiment = a.sentiment ∧ row.location = a.location
        ∧ row.named_entities = a.named_entities
        ∧ row.thumbnail_url = a.thumbnail_url ∧ row.language = a.language
        ∧ row.keywords = coerce_keywords a.keywords
        ∧ row.importance_level = coerce_int a.importance_level
        ∧ row.date_time = coerce_timestamp a.date_time
        ∧ row.source_name = pyOrStr a.source_name a.original_source_name) := by
  constructor
  · rcases Bool.eq_false_or_eq_true (pyTruthy a.title) with h1 | h1 <;>
    rcases Bool.eq_false_or_eq_true (pyTruthy a.full_text) with h2 | h2 <;>
    rcases Bool.eq_false_or_eq_true (pyTruthy (pyOrStr a.source_url a.url))
      with h3 | h3 <;>
      simp [normalize_article_for_db, h1, h2, h3]
  · intro row hrow
    unfold normalize_article_for_db at hrow
    by_cases h : (pyTruthy a.title && pyTruthy a.full_text
        && pyTruthy (pyOrStr a.source_url a.url)) = true
    · rw [if_pos h] at hrow
      simp only [Bool.and_eq_true] at h
      injection hrow with hrow
      subst hrow
      refine ⟨?_, ?_, ?_, rfl, rfl, rfl, rfl, rfl, rfl, rfl, rfl, rfl, rfl, rfl⟩
      · exact pyTruthy_eq_some h.1.1
      · exact pyTruthy_eq_some h.1.2
      · exact pyTruthy_eq_some h.2
    · rw [if_neg h] at hrow
      exact absurd hrow (by simp)

/-- Witness for C6: a row missing full_text and source_url is
rejected; a row with the three required fields present is kept and
carries its summary as supplied. -/
theorem normalize_null_iff_required_missing_witness :
    normalize_article_for_db 2 { title := some "T" } = none
    ∧ (∃ row, normalize_article_for_db 2
        { title := some "T", full_text := some "F", source_url := some "u",
          summary := some "sum" } = some row ∧ row.summary = some "sum") := by
  have h1 := normalize_null_iff_required_missing 2
    ({ title := some "T" } : DetailedArticle)
  have h2 := normalize_null_iff_required_missing 2
    ({ title := some "T", full_text := some "F", source_url := some "u",
       summary := some "sum" } : DetailedArticle)
  constructor
  · exact h1.1.mpr (Or.inr (Or.inl (by decide)))
  · cases hr : normalize_article_for_db 2
        ({ title := some "T", full_text := some "F", source_url := some "u",
           summary := some "sum" } : DetailedArticle) with
    | none => exact absurd (h2.1.mp hr) (by decide)
    | some row => exact ⟨row, rfl, (h2.2 row hr).2.2.2.1⟩

/-- C7: with the three required fields present, the row is returned
non-null and its embedding key holds _coerce_embedding of the supplied
embedding, which accepts exactly the lists whose every element
converts to a float and whose converted length equals the configured
dimension (assumed positive, as any configured EMBEDDING_DIM is);
otherwise the embedding is dropped while the row survives. -/
theorem normalize_embedding_dimension_gate (dim : Nat) (a : DetailedArticle)
    (hdim : 0 < dim)
    (ht : pyTruthy a.title = true) (hf : pyTruthy a.full_text = true)
    (hs : pyTruthy (pyOrStr a.source_url a.url) = true) :
    ∃ row, normalize_article_for_db dim a = some row
      ∧ row.embedding = coerce_embedding dim a.embedding
      ∧ ∀ vec, (coerce_embedding dim a.embedding = some vec ↔
          ∃ l, a.embedding = some l ∧ l.mapM id = some vec
            ∧ vec.length = dim) := by
  unfold normalize_article_for_db
  rw [if_pos (by simp [ht, hf, hs])]
  refine ⟨_, rfl, rfl, ?_⟩
  · intro vec
    constructor
    · intro hc
      cases he : a.embedding with
      | none => rw [he] at hc; exact absurd hc (by simp [coerce_embedding])
      | some l =>
        rw [he] at hc
        simp only [coerce_embedding] at hc
        by_cases hemp : l.isEmpty = true
        · rw [if_pos hemp] at hc; exact absurd hc (by simp)
        · rw [if_neg hemp] at hc
          cases hm : l.mapM id with
          | none => simp only [hm] at hc; exact absurd hc (by simp)
          | some v2 =>
            simp only [hm] at hc
            by_cases hlen : v2.length ≠ dim
            · rw [if_pos hlen] at hc; exact absurd hc (by simp)
            · rw [if_neg hlen] at hc
              injection hc with hc
              subst hc
              exact ⟨l, rfl, hm, by omega⟩
    · rintro ⟨l, he, hm, hlen⟩
      rw [he]
      simp only [coerce_embedding]
      have hlne : l ≠ [] := by
        intro h0
        subst h0
        rw [List.mapM_nil] at hm
        have hv : vec = [] := (Option.some.inj hm).symm
        rw [hv] at hlen
        simp at hlen
        omega
      rw [if_neg (by simp [hlne])]
      simp only [hm]
      rw [if_neg (by simp [hlen])]

/-- Witness for C7: a length-3 embedding against configured dimension
2 is dropped while the row is still returned. -/
theorem normalize_embedding_dimension_gate_witness :
    ∃ row, normalize_article_for_db 2 embArticle = some row
      ∧ row.embedding = none := by
  obtain ⟨row, h1, h2, _⟩ := normalize_embedding_dimension_gate 2 embArticle
    (by omega) (by decide) (by decide) (by decide)
  refine ⟨row, h1, ?_⟩
  rw [h2]
  decide

/-! ## Theorems: enrichment pipeline (C3, C4, C5, C10) -/

theorem process_batch_eq_of_valid (o : Oracle) (dim : Nat)
    (allArticles : List NewsArticle) (b : Nat)
    (hb : b = 1 ∨ b = 2 ∨ b = 3 ∨ b = 4) (hAll : allArticles ≠ [])
    (hne : batchSlice allArticles b 4 ≠ []) :
    process_merged_news_batch o dim allArticles b =
      { success := true,
        stats := (process_batch_go o b
          (batchStartIdx b (articlesPerBatch allArticles.length 4) + 1)
          (batchSlice allArticles b 4)).stats,
        detailed_articles := (process_batch_go o b
          (batchStartIdx b (articlesPerBatch allArticles.length 4) + 1)
          (batchSlice allArticles b 4)).detailed,
        trace := (process_batch_go o b
          (batchStartIdx b (articlesPerBatch allArticles.length 4) + 1)
          (batchSlice allArticles b 4)).trace,
        supabase_upload := some (upsert_articles o.storeUpsert dim
          (process_batch_go o b
            (batchStartIdx b (articlesPerBatch allArticles.length 4) + 1)
            (batchSlice allArticles b 4)).detailed) } := by
  unfold process_merged_news_batch
  rw [if_neg (not_not_intro hb), if_neg (by simp [hAll])]
  simp only []
  rw [if_neg (by simp [hne])]

/-- C10: a valid batch number whose ceiling-division slice of a
non-empty merged list is empty yields success=false (the success-rate
expression divides by the zero batch size; the raised
ZeroDivisionError is converted by the catch-all handler), not a
successful empty-batch result. -/
theorem empty_slice_batch_fails (o : Oracle) (dim : Nat)
    (allArticles : List NewsArticle) (b : Nat)
    (hb : b = 1 ∨ b = 2 ∨ b = 3 ∨ b = 4)
    (hne : allArticles ≠ [])
    (hempty : batchSlice allArticles b 4 = []) :
    (process_merged_news_batch o dim allArticles b).success = false
    ∧ (process_merged_news_batch o dim allArticles b).error
        = some ("Error processing batch " ++ toString b
            ++ ": division by zero") := by
  unfold process_merged_news_batch
  rw [if_neg (not_not_intro hb), if_neg (by simp [hne])]
  simp only []
  rw [hempty]
  simp

/-- Witness for C10: one article, batch 2: the slice is empty and the
run fails although articles exist. -/
theorem empty_slice_batch_fails_witness :
    ([urlArticle] : List NewsArticle) ≠ []
    ∧ batchSlice ([urlArticle] : List NewsArticle) 2 4 = []
    ∧ (process_merged_news_batch oracleOk 1536 [urlArticle] 2).success
        = false := by
  refine ⟨by decide, by decide, ?_⟩
  exact (empty_slice_batch_fails oracleOk 1536 [urlArticle] 2
    (Or.inr (Or.inl rfl)) (by decide) (by decide)).1

/-- Counterexample to C3 as stated: with one article present (input
non-empty) and batch number 2, the run reports an overall failure, so
the absence of input articles is not the only source of failure. -/
theorem batch_failure_with_articles_present :
    ([urlArticle] : List NewsArticle) ≠ []
    ∧ (process_merged_news_batch oracleOk 1536 [urlArticle] 2).success
        = false := by
  refine ⟨by decide, by decide⟩

/-- C3 (amended): for every non-empty batch slice the run reports
overall success=true whatever the per-article outcomes; the absence of
input articles reports failure (as do an invalid batch number and an
empty batch slice, per C10). -/
theorem batch_success_independent_of_failures (o : Oracle) (dim : Nat)
    (allArticles : List NewsArticle) (b : Nat)
    (hb : b = 1 ∨ b = 2 ∨ b = 3 ∨ b = 4) :
    (batchSlice allArticles b 4 ≠ [] →
      (process_merged_news_batch o dim allArticles b).success = true
      ∧ (process_merged_news_batch o dim allArticles b).error = none)
    ∧ (allArticles = [] →
      (process_merged_news_batch o dim allArticles b).success = false) := by
  constructor
  · intro hne
    have hAll : allArticles ≠ [] := by
      intro h0
      rw [h0] at hne
      exact hne (by simp [batchSlice])
    rw [process_batch_eq_of_valid o dim allArticles b hb hAll hne]
    exact ⟨rfl, rfl⟩
  · intro h0
    subst h0
    unfold process_merged_news_batch
    rw [if_neg (not_not_intro hb)]
    simp

/-- Witness for C3 at the spec example: a batch of five articles whose
second lacks a URL records one fetch failure, four successes and
overall success. -/
theorem batch_success_independent_of_failures_witness :
    batchSlice exampleArticles 1 4 ≠ []
    ∧ (process_merged_news_batch oracleOk 1536 exampleArticles 1).success = true
    ∧ (process_merged_news_batch oracleOk 1536
        exampleArticles 1).stats.successful = 4
    ∧ (process_merged_news_batch oracleOk 1536 exampleArticles 1).stats.failed
        = 1
    ∧ (process_merged_news_batch oracleOk 1536 exampleArticles 1).stats.errors
        = ["Article 2: No URL found"] := by
  refine ⟨by decide,
    ((batch_success_independent_of_failures oracleOk 1536 exampleArticles 1
      (Or.inl rfl)).1 (by decide)).1, by decide, by decide, by decide⟩

theorem process_batch_go_trace (o : Oracle) (b : Nat) :
    ∀ (g : Nat) (articles : List NewsArticle),
      (process_batch_go o b g articles).trace
        = (articles.enumFrom g).flatMap (fun p =>
            PipelineEvent.process p.1 ::
              (if (process_one_article o p.2 p.1 b).isOk
               then [PipelineEvent.sleep] else [])) := by
  intro g articles
  induction articles generalizing g with
  | nil => rfl
  | cons a rest ih =>
    simp only [process_batch_go, List.enumFrom, List.flatMap_cons]
    cases h : process_one_article o a g b with
    | error e => simp [h, Except.isOk, Except.toBool, ih (g + 1)]
    | ok da => simp [h, Except.isOk, Except.toBool, ih (g + 1)]

/-- Counterexample to C4 as stated: batch 1 of fiveArticles holds two
articles, the first failing (no URL) and the second succeeding; the
trace shows no sleep between the two process events — the delay is
skipped on failure, not inserted after every article. -/
theorem delay_skipped_on_failure_counterexample :
    (process_merged_news_batch oracleOk 1536 fiveArticles 1).stats.failed = 1
    ∧ (process_merged_news_batch oracleOk 1536
        fiveArticles 1).stats.successful = 1
    ∧ (process_merged_news_batch oracleOk 1536 fiveArticles 1).trace
        = [PipelineEvent.process 1, PipelineEvent.process 2,
           PipelineEvent.sleep] := by
  refine ⟨by decide, by decide, by decide⟩

/-- C4 (amended): the batch iterates its slice in order and the fixed
one-unit suspending delay follows exactly the successfully processed
articles; every failure path reaches the next article via continue,
skipping the delay. -/
theorem delay_follows_successful_articles (o : Oracle) (dim : Nat)
    (allArticles : List NewsArticle) (b : Nat)
    (hb : b = 1 ∨ b = 2 ∨ b = 3 ∨ b = 4)
    (hAll : allArticles ≠ [])
    (hne : batchSlice allArticles b 4 ≠ []) :
    (process_merged_news_batch o dim allArticles b).trace
      = ((batchSlice allArticles b 4).enumFrom
          (batchStartIdx b (articlesPerBatch allArticles.length 4) + 1)).flatMap
          (fun p => PipelineEvent.process p.1 ::
            (if (process_one_article o p.2 p.1 b).isOk
             then [PipelineEvent.sleep] else [])) := by
  rw [process_batch_eq_of_valid o dim allArticles b hb hAll hne]
  exact process_batch_go_trace o b _ _

/-- Witness for C4 (amended) at a concrete batch. -/
theorem delay_follows_successful_articles_witness :
    (process_merged_news_batch oracleOk 1536 fiveArticles 1).trace
      = ((batchSlice fiveArticles 1 4).enumFrom
          (batchStartIdx 1 (articlesPerBatch fiveArticles.length 4) + 1)).flatMap
          (fun p => PipelineEvent.process p.1 ::
            (if (process_one_article oracleOk p.2 p.1 1).isOk
             then [PipelineEvent.sleep] else [])) :=
  delay_follows_successful_articles oracleOk 1536 fiveArticles 1 (Or.inl rfl)
    (by decide) (by decide)

theorem generate_embedding_failure_keeps_article (o : Oracle)
    (a : DetailedArticle) (h : (generate_article_embedding o a).1 = false) :
    (generate_article_embedding o a).2 = a := by
  unfold generate_article_embedding at h ⊢
  cases hE : o.getEmbeddings (embedding_input a) with
  | ok vs =>
    cases vs with
    | nil => simp [hE]
    | cons v rest =>
      rw [hE] at h
      simp at h
  | error e => simp [hE]

/-- C5: an article that reaches the Embed stage and fails there is not
excluded: it is returned successfully with its embedding still unset,
carries the four finalization stamps, is counted as successful by the
loop and appears in the detailed articles passed on to persistence. -/
theorem embed_failure_never_excludes (o : Oracle) (article : NewsArticle)
    (g b : Nat) (c md : String) (pd : DetailedArticle)
    (hurl : pyTruthy (pyOrStr article.url article.source_url) = true)
    (hscrape : o.scrape ((pyOrStr article.url article.source_url).getD "")
      = Except.ok c)
    (hmd : o.extractMarkdown c = Except.ok md)
    (hmis : process_article_with_mistral o md article = Except.ok pd)
    (hembed : (generate_article_embedding o pd).1 = false)
    (hpd : pd.embedding = none) :
    ∃ fin, process_one_article o article g b = Except.ok fin
      ∧ fin.embedding = none
      ∧ fin.processing_status = some "completed"
      ∧ fin.processing_timestamp = some o.now
      ∧ fin.batch_number = some (b : Int)
      ∧ fin.global_article_number = some (g : Int)
      ∧ (process_batch_go o b g [article]).stats.successful = 1
      ∧ (process_batch_go o b g [article]).detailed = [fin] := by
  have hkeep := generate_embedding_failure_keeps_article o pd hembed
  have hrun : process_one_article o article g b
      = Except.ok { (generate_article_embedding o pd).2 with
          processing_timestamp := some o.now,
          processing_status := some "completed",
          batch_number := some (b : Int),
          global_article_number := some (g : Int) } := by
    simp only [process_one_article]
    rw [if_neg (by simp [hurl])]
    simp only [hscrape, hmd, hmis]
  refine ⟨_, hrun, ?_, rfl, rfl, rfl, rfl, ?_, ?_⟩
  · show (generate_article_embedding o pd).2.embedding = none
    rw [hkeep]
    exact hpd
  · simp [process_batch_go, hrun]
  · simp [process_batch_go, hrun]

/-- Witness for C5: a concrete article whose fetch, extraction and
Mistral stages succeed and whose embedding call fails. -/
theorem embed_failure_never_excludes_witness :
    ∃ fin, process_one_article oracleOk urlArticle 7 3 = Except.ok fin
      ∧ fin.embedding = none
      ∧ fin.processing_status = some "completed"
      ∧ fin.processing_timestamp = some oracleOk.now
      ∧ fin.batch_number = some (3 : Int)
      ∧ fin.global_article_number = some (7 : Int)
      ∧ (process_batch_go oracleOk 3 7 [urlArticle]).stats.successful = 1
      ∧ (process_batch_go oracleOk 3 7 [urlArticle]).detailed = [fin] :=
  embed_failure_never_excludes oracleOk urlArticle 7 3 "content" "content"
    pdWitness (by decide) rfl rfl rfl rfl rfl

/-! ## Theorems: upload-time identity deduplication (C9) -/

theorem optSeen_true {v : Option String} {seen : List String}
    (h : optSeen v seen = true) : ∃ s, v = some s ∧ s ∈ seen := by
  cases v with
  | none => simp [optSeen] at h
  | some s =>
    refine ⟨s, rfl, ?_⟩
    simpa [optSeen, List.elem_iff] using h

theorem optSeen_of_mem {s : String} {seen : List String}
    (h : s ∈ seen) : optSeen (some s) seen = true := by
  simpa [optSeen, List.elem_iff] using h

theorem mem_consOption {v : Option String} {seen : List String} {u : String}
    (h : u ∈ consOption v seen) : v = some u ∨ u ∈ seen := by
  cases v with
  | none => exact Or.inr h
  | some s =>
    rcases List.mem_cons.mp h with h1 | h2
    · exact Or.inl (by rw [h1])
    · exact Or.inr h2

theorem mem_consOption_of_mem {v : Option String} {seen : List String}
    {u : String} (h : u ∈ seen) : u ∈ consOption v seen := by
  cases v with
  | none => exact h
  | some s => exact List.mem_cons_of_mem _ h

theorem self_mem_consOption (u : String) (seen : List String) :
    u ∈ consOption (some u) seen := List.mem_cons_self _ _

theorem upload_dedup_go_sublist (l : List DetailedArticle) :
    ∀ su st, (upload_dedup_go su st l).Sublist l := by
  induction l with
  | nil => intro su st; simp [upload_dedup_go]
  | cons a rest ih =>
    intro su st
    unfold upload_dedup_go
    by_cases h : (optSeen (idUrl a) su || optSeen (idTitle a) st) = true
    · rw [if_pos h]; exact (ih su st).cons a
    · rw [if_neg h]; exact (ih _ _).cons₂ a

theorem upload_dedup_go_not_seen_url (l : List DetailedArticle) :
    ∀ su st b, b ∈ upload_dedup_go su st l →
      ∀ u, idUrl b = some u → u ∉ su := by
  induction l with
  | nil => intro su st b hb; simp [upload_dedup_go] at hb
  | cons a rest ih =>
    intro su st b hb u hu hmem
    unfold upload_dedup_go at hb
    by_cases h : (optSeen (idUrl a) su || optSeen (idTitle a) st) = true
    · rw [if_pos h] at hb
      exact ih su st b hb u hu hmem
    · rw [if_neg h] at hb
      rcases List.mem_cons.mp hb with rfl | hb2
      · have hseen : optSeen (idUrl b) su = true := by
          rw [hu]; exact optSeen_of_mem hmem
        simp [hseen] at h
      · exact ih _ _ b hb2 u hu (mem_consOption_of_mem hmem)

theorem upload_dedup_go_not_seen_title (l : List DetailedArticle) :
    ∀ su st b, b ∈ upload_dedup_go su st l →
      ∀ t, idTitle b = some t → t ∉ st := by
  induction l with
  | nil => intro su st b hb; simp [upload_dedup_go] at hb
  | cons a rest ih =>
    intro su st b hb t ht hmem
    unfold upload_dedup_go at hb
    by_cases h : (optSeen (idUrl a) su || optSeen (idTitle a) st) = true
    · rw [if_pos h] at hb
      exact ih su st b hb t ht hmem
    · rw [if_neg h] at hb
      rcases List.mem_cons.mp hb with rfl | hb2
      · have hseen : optSeen (idTitle b) st = true := by
          rw [ht]; exact optSeen_of_mem hmem
        simp [hseen] at h
      · exact ih _ _ b hb2 t ht (mem_consOption_of_mem hmem)

theorem upload_dedup_go_pairwise (l : List DetailedArticle) :
    ∀ su st, (upload_dedup_go su st l).Pairwise
      (fun a b => (∀ u, idUrl a = some u → idUrl b ≠ some u)
        ∧ (∀ t, idTitle a = some t → idTitle b ≠ some t)) := by
  induction l with
  | nil => intro su st; simp [upload_dedup_go]
  | cons a rest ih =>
    intro su st
    unfold upload_dedup_go
    by_cases h : (optSeen (idUrl a) su || optSeen (idTitle a) st) = true
    · rw [if_pos h]; exact ih su st
    · rw [if_neg h]
      refine List.Pairwise.cons ?_ (ih _ _)
      intro b hb
      constructor
      · intro u hu hub
        exact upload_dedup_go_not_seen_url rest _ _ b hb u hub
          (by rw [hu]; exact self_mem_consOption u su)
      · intro t ht htb
        exact upload_dedup_go_not_seen_title rest _ _ b hb t htb
          (by rw [ht]; exact self_mem_consOption t st)

theorem upload_dedup_go_complete (l : List DetailedArticle) :
    ∀ su st a, a ∈ l →
      a ∈ upload_dedup_go su st l
      ∨ (∃ u, idUrl a = some u
          ∧ (u ∈ su ∨ ∃ b ∈ upload_dedup_go su st l, idUrl b = some u))
      ∨ (∃ t, idTitle a = some t
          ∧ (t ∈ st ∨ ∃ b ∈ upload_dedup_go su st l, idTitle b = some t)) := by
  induction l with
  | nil => intro su st a ha; simp at ha
  | cons a0 rest ih =>
    intro su st a ha
    unfold upload_dedup_go
    by_cases h : (optSeen (idUrl a0) su || optSeen (idTitle a0) st) = true
    · rw [if_pos h]
      have hor : optSeen (idUrl a0) su = true
          ∨ optSeen (idTitle a0) st = true := by simpa using h
      rcases List.mem_cons.mp ha with rfl | ha2
      · rcases hor with hu | ht
        · obtain ⟨u, hu1, hu2⟩ := optSeen_true hu
          exact Or.inr (Or.inl ⟨u, hu1, Or.inl hu2⟩)
        · obtain ⟨t, ht1, ht2⟩ := optSeen_true ht
          exact Or.inr (Or.inr ⟨t, ht1, Or.inl ht2⟩)
      · exact ih su st a ha2
    · rw [if_neg h]
      rcases List.mem_cons.mp ha with rfl | ha2
      · exact Or.inl (List.mem_cons_self _ _)
      · rcases ih (consOption (idUrl a0) su) (consOption (idTitle a0) st) a ha2
          with hk | ⟨u, hu, hc⟩ | ⟨t, ht, hc⟩
        · exact Or.inl (List.mem_cons_of_mem _ hk)
        · rcases hc with hmem | ⟨b, hb, hbu⟩
          · rcases mem_consOption hmem with h0 | h1
            · exact Or.inr (Or.inl ⟨u, hu,
                Or.inr ⟨a0, List.mem_cons_self _ _, h0⟩⟩)
            · exact Or.inr (Or.inl ⟨u, hu, Or.inl h1⟩)
          · exact Or.inr (Or.inl ⟨u, hu,
              Or.inr ⟨b, List.mem_cons_of_mem _ hb, hbu⟩⟩)
        · rcases hc with hmem | ⟨b, hb, hbt⟩
          · rcases mem_consOption hmem with h0 | h1
            · exact Or.inr (Or.inr ⟨t, ht,
                Or.inr ⟨a0, List.mem_cons_self _ _, h0⟩⟩)
            · exact Or.inr (Or.inr ⟨t, ht, Or.inl h1⟩)
          · exact Or.inr (Or.inr ⟨t, ht,
              Or.inr ⟨b, List.mem_cons_of_mem _ hb, hbt⟩⟩)

/-- C9: the upload-time duplicate filter keeps an order-preserved
subsequence in which no two kept articles share a present identity
source_url and no two share a non-empty trimmed identity title, and
every input article is either kept or shares its identity URL or
(fallback) identity title with some kept article — i.e. only the first
occurrence of each identity survives.  This pass runs on the articles
handed to the upsert and is separate from the merge-time
content-similarity deduplication (merge_unique). -/
theorem upload_identity_dedup (articles : List DetailedArticle) :
    ((upload_dedup articles).Sublist articles)
    ∧ (upload_dedup articles).Pairwise
        (fun a b => (∀ u, idUrl a = some u → idUrl b ≠ some u)
          ∧ (∀ t, idTitle a = some t → idTitle b ≠ some t))
    ∧ ∀ a ∈ articles, a ∈ upload_dedup articles
        ∨ (∃ u, idUrl a = some u
            ∧ ∃ b ∈ upload_dedup articles, idUrl b = some u)
        ∨ (∃ t, idTitle a = some t
            ∧ ∃ b ∈ upload_dedup articles, idTitle b = some t) := by
  refine ⟨upload_dedup_go_sublist articles [] [],
    upload_dedup_go_pairwise articles [] [], ?_⟩
  intro a ha
  rcases upload_dedup_go_complete articles [] [] a ha
    with hk | ⟨u, hu, hc⟩ | ⟨t, ht, hc⟩
  · exact Or.inl hk
  · rcases hc with hmem | hex
    · simp at hmem
    · exact Or.inr (Or.inl ⟨u, hu, hex⟩)
  · rcases hc with hmem | hex
    · simp at hmem
    · exact Or.inr (Or.inr ⟨t, ht, hex⟩)

/-- Witness for C9: a URL duplicate and a title duplicate are both
dropped, keeping the first occurrence only. -/
theorem upload_identity_dedup_witness :
    upload_dedup [dupA, dupB, dupC] = [dupA]
    ∧ (upload_dedup [dupA, dupB, dupC]).Sublist [dupA, dupB, dupC] := by
  have h := upload_identity_dedup [dupA, dupB, dupC]
  exact ⟨by decide, h.1⟩

end KhoborFresh
